import Mathlib

/-!
Shallow embedding of the connection-lifecycle core of the `unfollow` VPN
broker (FastAPI + SQLAlchemy).  Rows of the four relevant tables become Lean
structures, the database becomes a record of lists of rows, and each route
handler becomes a function from the database (plus its request parameters)
to an `Except` of an API error or the updated database and response row.

Conventions used throughout:
* ids (UUIDs in the source) are modelled as `Nat`;
* timestamps (`datetime.utcnow()`) are modelled as non-negative milliseconds,
  so that `int(delta.total_seconds())` becomes division by 1000 (floored);
* dates are modelled as `Nat` day numbers;
* nullable text columns are `Option String`, and Python truthiness of such a
  value (`if x:`) is `pyTruthy` (both `None` and `""` are falsy);
* the ORM pattern "fetch the first row matching a filter, then mutate it" is
  modelled as `List.find?` followed by a `List.map` that rewrites exactly the
  rows matching the same filter;
* SQL `COUNT` over a filter is `List.countP`, SQL `SUM` is a mapped `List.sum`.
-/

namespace Unfollow

/-- The error responses raised by the modelled routes (HTTP status plus the
`detail` string from the source). -/
inductive ApiError where
  | notFound (detail : String)
  | forbidden (detail : String)
  | unauthorized (detail : String)
  deriving DecidableEq

/-- Row of the `users` table (`app/database/models.py`, class `User`);
only the columns the modelled routes read or write. -/
structure User where
  id : Nat
  username : String
  password_hash : String
  device_id : Option String
  device_name : Option String
  max_devices : Nat
  is_active : Bool
  is_locked : Bool
  role : String
  data_limit_mb : Option Nat
  total_uploaded : Nat
  total_downloaded : Nat
  last_login : Option Nat
  last_connection : Option Nat
  deriving DecidableEq

/-- Row of the `servers` table (`app/database/models.py`, class `Server`);
`current_load` (a 0–100 float in the source) is modelled as a `Nat` load
metric and `latency_ms` keeps its nullability. -/
structure Server where
  id : Nat
  protocol : String
  is_active : Bool
  is_premium : Bool
  max_users : Nat
  current_users : Nat
  current_load : Nat
  latency_ms : Option Nat
  deriving DecidableEq

/-- Row of the `connection_logs` table (`app/database/models.py`,
class `ConnectionLog`). -/
structure ConnectionLog where
  id : Nat
  user_id : Nat
  server_id : Option Nat
  protocol : String
  device_info : Option String
  bytes_uploaded : Nat
  bytes_downloaded : Nat
  status : String
  disconnect_reason : Option String
  connected_at : Option Nat
  disconnected_at : Option Nat
  duration_seconds : Option Nat
  deriving DecidableEq

/-- Row of the `usage_stats` table (`app/database/models.py`,
class `UsageStats`): the per-(user, date, protocol) daily aggregate. -/
structure UsageStats where
  id : Nat
  user_id : Nat
  date : Nat
  protocol : Option String
  bytes_uploaded : Nat
  bytes_downloaded : Nat
  connection_count : Nat
  connection_time_seconds : Nat
  deriving DecidableEq

/-- The persistent state the modelled routes touch. -/
structure DB where
  users : List User
  servers : List Server
  connections : List ConnectionLog
  usage_stats : List UsageStats
  deriving DecidableEq

/-- Python truthiness of a nullable string: `None` and `""` are falsy. -/
def pyTruthy : Option String → Bool
  | none => false
  | some s => s != ""

/-- Python truthiness of a nullable integer: `None` and `0` are falsy. -/
def pyTruthyNat : Option Nat → Bool
  | none => false
  | some n => n != 0

def findUser (db : DB) (uid : Nat) : Option User :=
  db.users.find? (fun u => u.id == uid)

def findUserByName (db : DB) (uname : String) : Option User :=
  db.users.find? (fun u => u.username == uname)

def findServer (db : DB) (sid : Nat) : Option Server :=
  db.servers.find? (fun s => s.id == sid)

/-- The lookup made by the `disconnect` route: by connection id and owning user,
with no filter on status. -/
def findConn (db : DB) (cid uid : Nat) : Option ConnectionLog :=
  db.connections.find? (fun c => c.id == cid && c.user_id == uid)

/-- ORM-style update: rewrite the user rows matching the id. -/
def updateUser (db : DB) (uid : Nat) (f : User → User) : DB :=
  { db with users := db.users.map (fun u => if u.id == uid then f u else u) }

/-- ORM-style update: rewrite the server rows matching the id. -/
def updateServer (db : DB) (sid : Nat) (f : Server → Server) : DB :=
  { db with servers := db.servers.map (fun s => if s.id == sid then f s else s) }

/-- Request body of `POST /servers/connect` (`ConnectionCreate`). -/
structure ConnectionCreate where
  server_id : Nat
  protocol : String
  device_info : Option String
  deriving DecidableEq

/-- Request body of `POST /auth/login` (`UserLogin`). -/
structure UserLogin where
  username : String
  password : String
  device_id : Option String
  device_name : Option String
  deriving DecidableEq

/-- `SELECT COUNT(*)` over the connection rows of the user whose status is
`connected` — the device-limit count in `connect_to_server`. -/
def activeConnectionCount (db : DB) (uid : Nat) : Nat :=
  db.connections.countP (fun c => c.user_id == uid && c.status == "connected")

/-- Number of sessions in `connected` state referencing a given server. -/
def connectedCountOnServer (db : DB) (sid : Nat) : Nat :=
  db.connections.countP (fun c => c.server_id == some sid && c.status == "connected")

/-- The `ConnectionLog` row `connect_to_server` inserts on success. -/
def newConnRow (uid : Nat) (server : Server) (req : ConnectionCreate)
    (newId now : Nat) : ConnectionLog :=
  { id := newId, user_id := uid, server_id := some server.id,
    protocol := req.protocol, device_info := req.device_info,
    bytes_uploaded := 0, bytes_downloaded := 0,
    status := "connected", disconnect_reason := none,
    connected_at := some now, disconnected_at := none,
    duration_seconds := none }

/-- `POST /servers/connect` (`connect_to_server` in
`app/api/routes_servers.py`): verify the server exists and is active, check
the device limit, then create a `connected` session, increment the `current_users` of the server and stamp the `last_connection` of the user.  `newId` stands for
the fresh UUID the database generates for the new row and `now` for
`datetime.utcnow()`. -/
def connect_to_server (db : DB) (uid : Nat) (req : ConnectionCreate)
    (newId now : Nat) : Except ApiError (DB × ConnectionLog) :=
  match findUser db uid with
  | none => .error (.unauthorized "Could not validate credentials")
  | some user =>
    match findServer db req.server_id with
    | none => .error (.notFound "Server not found or unavailable")
    | some server =>
      if !server.is_active then
        .error (.notFound "Server not found or unavailable")
      else if user.max_devices ≤ activeConnectionCount db uid then
        .error (.forbidden "Maximum simultaneous connections allowed")
      else
        let newConn := newConnRow uid server req newId now
        let db1 := { db with connections := db.connections ++ [newConn] }
        let db2 := updateServer db1 server.id
          (fun s => { s with current_users := s.current_users + 1 })
        let db3 := updateUser db2 uid
          (fun u => { u with last_connection := some now })
        .ok (db3, newConn)

/-- The mutation `disconnect` applies to the fetched connection row:
record the reported bytes, flip the status, stamp the disconnect time and
compute the floored duration when a connect time is present. -/
def finalizeConn (up down now : Nat) (c : ConnectionLog) : ConnectionLog :=
  { c with
    bytes_uploaded := up, bytes_downloaded := down,
    status := "disconnected", disconnected_at := some now,
    duration_seconds :=
      match c.connected_at with
      | some t => some ((now - t) / 1000)
      | none => c.duration_seconds }

/-- `POST /servers/disconnect/{connection_id}` (`disconnect` in
`app/api/routes_servers.py`): fetch the connection by id and owner (with no
status filter), finalize it, add the reported bytes to the lifetime
totals of the user, and decrement the `current_users` of the referenced server when it is
positive.  Nothing is written to `usage_stats`, matching the source. -/
def disconnect (db : DB) (uid cid up down now : Nat) :
    Except ApiError (DB × ConnectionLog) :=
  match findConn db cid uid with
  | none => .error (.notFound "Connection not found")
  | some conn =>
    let conns := db.connections.map (fun c =>
      if c.id == cid && c.user_id == uid then finalizeConn up down now c else c)
    let db1 := { db with connections := conns }
    let db2 := updateUser db1 uid (fun u =>
      { u with total_uploaded := u.total_uploaded + up,
               total_downloaded := u.total_downloaded + down })
    let db3 :=
      match conn.server_id with
      | none => db2
      | some sid =>
        match findServer db2 sid with
        | none => db2
        | some srv =>
          if 0 < srv.current_users then
            updateServer db2 sid (fun s => { s with current_users := s.current_users - 1 })
          else db2
    .ok (db3, finalizeConn up down now conn)

/-- `POST /admin/users/{user_id}/disconnect` (`disconnect_user` in
`app/api/routes_admin.py`): flip every `connected` session of the target
user to `disconnected` with an administrative reason and a computed
duration; the source never touches `current_users` here.  Returns the
updated state and the number of affected sessions. -/
def disconnect_user (db : DB) (target now : Nat) : DB × Nat :=
  let n := db.connections.countP (fun c => c.user_id == target && c.status == "connected")
  let conns := db.connections.map (fun c =>
    if c.user_id == target && c.status == "connected" then
      { c with status := "disconnected", disconnected_at := some now,
               disconnect_reason := some "Admin force disconnect",
               duration_seconds :=
                 match c.connected_at with
                 | some t => some ((now - t) / 1000)
                 | none => c.duration_seconds }
    else c)
  ({ db with connections := conns }, n)

/-- `GET /servers/{server_id}/connect` (`get_connection_info` in
`app/api/routes_servers.py`): a read-only endpoint that checks the server is
active, then premium access, then the data limit, and on success returns the
connection details of the server (modelled as the server row).  The data-limit
comparison `used_mb >= data_limit_mb` with `used_mb = bytes / 2^20` is the
exact rational comparison `data_limit_mb * 2^20 <= bytes`. -/
def get_connection_info (db : DB) (uid sid : Nat) : Except ApiError Server :=
  match findUser db uid with
  | none => .error (.unauthorized "Could not validate credentials")
  | some user =>
    match db.servers.find? (fun s => s.id == sid && s.is_active) with
    | none => .error (.notFound "Server not found")
    | some server =>
      if server.is_premium && !(user.role == "admin" || user.role == "premium") then
        .error (.forbidden "Premium server requires premium subscription")
      else
        let limitHit : Bool :=
          match user.data_limit_mb with
          | some limit =>
            limit != 0 &&
              decide (limit * 1048576 ≤ user.total_uploaded + user.total_downloaded)
          | none => false
        if limitHit then .error (.forbidden "Data limit exceeded")
        else .ok server

/-- Whether a server passes the premium filter `get_best_server` adds for
non-admin, non-premium roles. -/
def premiumEligible (role : String) (s : Server) : Bool :=
  if role == "admin" || role == "premium" then true else !s.is_premium

/-- The sort key of `get_best_server`: `current_load` ascending then
`latency_ms` ascending, a NULL latency ranking after all present ones. -/
def serverSortKey (s : Server) : Nat × Nat × Nat :=
  match s.latency_ms with
  | some l => (s.current_load, 0, l)
  | none => (s.current_load, 1, 0)

/-- Strict lexicographic comparison of sort keys. -/
def keyLt (a b : Nat × Nat × Nat) : Bool :=
  decide (a.1 < b.1) ||
    (a.1 == b.1 && (decide (a.2.1 < b.2.1) ||
      (a.2.1 == b.2.1 && decide (a.2.2 < b.2.2))))

/-- Non-strict lexicographic comparison of sort keys. -/
def keyLe (a b : Nat × Nat × Nat) : Bool := !keyLt b a

/-- The WHERE clause of `get_best_server`: active, spare capacity, premium
eligibility for the role of the caller, and protocol match when the query
parameter is truthy. -/
def eligibleServers (db : DB) (role : String) (protocol : Option String) :
    List Server :=
  db.servers.filter (fun s =>
    s.is_active && decide (s.current_users < s.max_users) &&
    premiumEligible role s &&
    (if pyTruthy protocol then s.protocol == protocol.getD "" else true))

/-- `ORDER BY current_load, latency_ms LIMIT 1`: the first element of the
list attaining the minimal sort key. -/
def pickBest : List Server → Option Server
  | [] => none
  | s :: rest =>
    match pickBest rest with
    | none => some s
    | some b => if keyLt (serverSortKey b) (serverSortKey s) then some b else some s

/-- `GET /servers/best` (`get_best_server` in `app/api/routes_servers.py`). -/
def get_best_server (db : DB) (uid : Nat) (protocol : Option String) :
    Except ApiError Server :=
  match findUser db uid with
  | none => .error (.unauthorized "Could not validate credentials")
  | some user =>
    match pickBest (eligibleServers db user.role protocol) with
    | none => .error (.notFound "No available servers")
    | some s => .ok s

/-- The opaque authenticator collaborator (`verify_password` in
`app/api/auth.py`): modelled as comparison with the stored hash. -/
def verify_password (plain hashed : String) : Bool := plain == hashed

/-- `POST /auth/login` (`login` in `app/api/routes_auth.py`): authenticate,
reject disabled accounts, apply the device lock (only when the account is
locked, a device id is bound AND one is presented, and they differ), then
overwrite the device binding with any presented values and stamp
`last_login`. -/
def login (db : DB) (req : UserLogin) (now : Nat) : Except ApiError DB :=
  match findUserByName db req.username with
  | none => .error (.unauthorized "Invalid username or password")
  | some user =>
    if !verify_password req.password user.password_hash then
      .error (.unauthorized "Invalid username or password")
    else if !user.is_active then
      .error (.forbidden "Account is disabled")
    else if user.is_locked && pyTruthy user.device_id && pyTruthy req.device_id
        && user.device_id != req.device_id then
      .error (.forbidden "Account is locked to another device")
    else
      .ok (updateUser db user.id (fun u =>
        let u1 := if pyTruthy req.device_id then { u with device_id := req.device_id } else u
        let u2 := if pyTruthy req.device_name then { u1 with device_name := req.device_name } else u1
        { u2 with last_login := some now }))

/-- The rows both usage endpoints range over: the `usage_stats` rows of the
caller dated on or after the window start. -/
def usageRowsSince (db : DB) (uid start : Nat) : List UsageStats :=
  db.usage_stats.filter (fun r => r.user_id == uid && decide (start ≤ r.date))

/-- Response shape of `GET /user/usage` (`UsageSummary`). -/
structure UsageSummary where
  total_uploaded : Nat
  total_downloaded : Nat
  total_connections : Nat
  total_time_seconds : Nat
  deriving DecidableEq

/-- `GET /user/usage` (`get_usage_summary` in `app/api/routes_user.py`):
SQL SUMs of the four counters over the window, with NULL sums coalesced
to 0 (the empty list sum). -/
def get_usage_summary (db : DB) (uid start : Nat) : UsageSummary :=
  let rows := usageRowsSince db uid start
  { total_uploaded := (rows.map UsageStats.bytes_uploaded).sum,
    total_downloaded := (rows.map UsageStats.bytes_downloaded).sum,
    total_connections := (rows.map UsageStats.connection_count).sum,
    total_time_seconds := (rows.map UsageStats.connection_time_seconds).sum }

/-- `GET /user/usage/daily` (`get_daily_usage` in `app/api/routes_user.py`):
the same window of rows, ordered by date descending. -/
def get_daily_usage (db : DB) (uid start : Nat) : List UsageStats :=
  (usageRowsSince db uid start).insertionSort (fun a b => b.date ≤ a.date)

/-- The state after a connect request, an error response leaving the
state unchanged (FastAPI rolls the transaction back on an exception). -/
def runConnect (db : DB) (uid : Nat) (req : ConnectionCreate) (newId now : Nat) : DB :=
  match connect_to_server db uid req newId now with
  | .ok p => p.1
  | .error _ => db

/-- The state after a disconnect request, errors leaving it unchanged. -/
def runDisconnect (db : DB) (uid cid up down now : Nat) : DB :=
  match disconnect db uid cid up down now with
  | .ok p => p.1
  | .error _ => db

/-- The state after a login request, errors leaving it unchanged. -/
def runLogin (db : DB) (req : UserLogin) (now : Nat) : DB :=
  match login db req now with
  | .ok db' => db'
  | .error _ => db

/-- The two user-driven session operations of the capacity bookkeeping:
admit (`connect_to_server`) and finalize (`disconnect`).  `newId` is the id
the database generates for the created row. -/
inductive Op where
  | connect (uid : Nat) (req : ConnectionCreate) (newId now : Nat)
  | finalize (uid cid up down now : Nat)
  deriving DecidableEq

def runOp (db : DB) : Op → DB
  | .connect uid req newId now => runConnect db uid req newId now
  | .finalize uid cid up down now => runDisconnect db uid cid up down now

/-- Side conditions under which a step keeps the books consistent: a connect
is given a fresh row id, and a finalize targets a session that is still in
`connected` state (the source happily re-finalizes a disconnected session,
which is exactly what breaks the bookkeeping). -/
def GoodOp (db : DB) : Op → Bool
  | .connect _ _ newId _ => db.connections.all (fun c => c.id != newId)
  | .finalize uid cid _ _ _ =>
    match findConn db cid uid with
    | some c => c.status == "connected"
    | none => true

def GoodSeq : DB → List Op → Bool
  | _, [] => true
  | db, op :: ops => GoodOp db op && GoodSeq (runOp db op) ops

def runOps (db : DB) (ops : List Op) : DB := ops.foldl runOp db

/-- The capacity bookkeeping invariant: every server row counts exactly the
sessions in `connected` state that reference it. -/
def Inv (db : DB) : Prop :=
  ∀ srv ∈ db.servers, srv.current_users = connectedCountOnServer db srv.id

/-- Well-formedness of the stored rows: primary keys are unique. -/
def WF (db : DB) : Prop :=
  (db.servers.map Server.id).Nodup ∧ (db.connections.map ConnectionLog.id).Nodup

/-- Fixture account: a plain-role user with the default device limit. -/
def exUser : User :=
  { id := 0, username := "alice", password_hash := "pw",
    device_id := none, device_name := none, max_devices := 1,
    is_active := true, is_locked := false, role := "user",
    data_limit_mb := none, total_uploaded := 0, total_downloaded := 0,
    last_login := none, last_connection := none }

/-- Fixture relay: active, non-premium, with spare capacity. -/
def exServer : Server :=
  { id := 1, protocol := "ssh_direct", is_active := true, is_premium := false,
    max_users := 10, current_users := 0, current_load := 5, latency_ms := some 20 }

/-- Fixture session in `connected` state on `exServer`. -/
def exConn : ConnectionLog :=
  { id := 2, user_id := 0, server_id := some 1, protocol := "ssh_direct",
    device_info := none, bytes_uploaded := 0, bytes_downloaded := 0,
    status := "connected", disconnect_reason := none,
    connected_at := some 1000, disconnected_at := none, duration_seconds := none }

/-- Fixture state with no session yet. -/
def exBaseDB : DB :=
  { users := [exUser], servers := [exServer], connections := [], usage_stats := [] }

/-- Fixture relay with its counter at 1. -/
def exLiveServer : Server := { exServer with current_users := 1 }

/-- Fixture state with one live session: counter at 1, one connected session. -/
def exLiveDB : DB :=
  { users := [exUser], servers := [exLiveServer],
    connections := [exConn], usage_stats := [] }

/-- Fixture state for the repeated-finalize scenario: session 2 is already
finalized with 100 bytes up and 50 down (already included in the lifetime
totals of the account), while session 3 keeps the server counter at 1. -/
def exDoneConn : ConnectionLog :=
  { exConn with
    status := "disconnected", bytes_uploaded := 100,
    bytes_downloaded := 50, disconnected_at := some 5000,
    duration_seconds := some 4 }

def exOtherConn : ConnectionLog :=
  { exConn with id := 3 }

/-- Fixture account whose lifetime totals already include the 100 and 50
bytes of the finalized session 2. -/
def exUsedUser : User :=
  { exUser with total_uploaded := 100, total_downloaded := 50 }

def exRefinalizeDB : DB :=
  { users := [exUsedUser], servers := [exLiveServer],
    connections := [exDoneConn, exOtherConn], usage_stats := [] }

/-- Fixture premium relay. -/
def exPremServer : Server := { exServer with is_premium := true }

/-- Fixture state whose only server is premium. -/
def exPremiumDB : DB :=
  { users := [exUser], servers := [exPremServer],
    connections := [], usage_stats := [] }

/-- Fixture account with a 1 MB data limit already fully used. -/
def exQuotaUser : User :=
  { exUser with data_limit_mb := some 1, total_uploaded := 1048576 }

/-- Fixture state whose user has a 1 MB data limit already fully used. -/
def exQuotaDB : DB :=
  { users := [exQuotaUser], servers := [exServer],
    connections := [], usage_stats := [] }

/-- Fixture request for the connect endpoint. -/
def exReq : ConnectionCreate :=
  { server_id := 1, protocol := "ssh_direct", device_info := none }

/-- Fixture operation sequence: one admit followed by its finalize. -/
def exOps : List Op := [.connect 0 exReq 2 1000, .finalize 0 2 100 50 5000]

/-- Fixture locked account bound to device "devA". -/
def exLockedUser : User :=
  { exUser with is_locked := true, device_id := some "devA" }

def exLockedDB : DB :=
  { users := [exLockedUser], servers := [], connections := [], usage_stats := [] }

/-- Fixture login request presenting the bound device and a device name. -/
def exLoginReq : UserLogin :=
  { username := "alice", password := "pw", device_id := some "devA",
    device_name := some "phone" }

/-- Fixture relay at full capacity with the lowest load. -/
def exFullServer : Server :=
  { exServer with
    id := 4, max_users := 2, current_users := 2,
    current_load := 1, latency_ms := some 5 }

/-- Fixture state for server selection: a full low-load server and a free one. -/
def exSelectDB : DB :=
  { users := [exUser], servers := [exFullServer, exServer],
    connections := [], usage_stats := [] }

/-- Fixture login request presenting a device different from the bound one. -/
def exLoginReqB : UserLogin :=
  { username := "alice", password := "pw", device_id := some "devB",
    device_name := none }

/-! ### Helper lemmas about the list patterns the routes use -/

lemma find?_map_of_pres {α : Type} (p : α → Bool) (g : α → α)
    (hp : ∀ x, p (g x) = p x) (l : List α) :
    (l.map g).find? p = (l.find? p).map g := by
  induction l with
  | nil => rfl
  | cons a l ih =>
    by_cases h : p a = true
    · rw [List.map_cons, List.find?_cons_of_pos _ ((hp a).trans h),
        List.find?_cons_of_pos _ h]
      rfl
    · rw [List.map_cons,
        List.find?_cons_of_neg _ (by rw [hp a]; exact h),
        List.find?_cons_of_neg _ h, ih]

lemma map_key_of_pres {α : Type} (key : α → Nat) (g : α → α)
    (h : ∀ x, key (g x) = key x) (l : List α) :
    (l.map g).map key = l.map key := by
  rw [List.map_map]
  exact List.map_congr_left (fun a _ => h a)

lemma countP_map_ite_unique {α : Type} (q sel : α → Bool) (f : α → α)
    (key : α → Nat) (k : Nat) :
    ∀ (l : List α) (c : α), (l.map key).Nodup →
      (∀ x, sel x = true → key x = k) → l.find? sel = some c →
      (l.map (fun x => if sel x then f x else x)).countP q
          + (if q c = true then 1 else 0)
        = l.countP q + (if q (f c) = true then 1 else 0) := by
  intro l
  induction l with
  | nil => intro c _ _ h; cases h
  | cons a l ih =>
    intro c hnd hsel hfind
    rw [List.map_cons] at hnd
    obtain ⟨hka, hnd2⟩ := List.nodup_cons.mp hnd
    by_cases ha : sel a = true
    · simp only [List.find?_cons, ha] at hfind
      injection hfind with hc
      subst hc
      have hmap : l.map (fun x => if sel x then f x else x) = l := by
        have hid : ∀ x ∈ l, (if sel x then f x else x) = x := by
          intro x hx
          have hxf : sel x = false := by
            cases hsx : sel x
            · rfl
            · exfalso
              apply hka
              have h1 : key a = key x := by rw [hsel a ha, hsel x hsx]
              rw [h1]
              exact List.mem_map_of_mem key hx
          rw [hxf]
          simp
        calc l.map (fun x => if sel x then f x else x) = l.map id :=
              List.map_congr_left (fun x hx => hid x hx)
          _ = l := List.map_id l
      rw [List.map_cons, if_pos ha, hmap, List.countP_cons, List.countP_cons]
      split_ifs <;> omega
    · have ha0 : sel a = false := by
        cases hsa : sel a
        · rfl
        · exact absurd hsa ha
      simp only [List.find?_cons, ha0] at hfind
      have hrec := ih c hnd2 hsel hfind
      rw [List.map_cons, if_neg ha, List.countP_cons, List.countP_cons]
      split_ifs at hrec ⊢ <;> omega

lemma find?_key_unique {α : Type} (key : α → Nat) (k : Nat) :
    ∀ (l : List α) (c : α), (l.map key).Nodup →
      l.find? (fun x => key x == k) = some c →
      ∀ x ∈ l, key x = k → x = c := by
  intro l
  induction l with
  | nil => intro c _ h; cases h
  | cons a l ih =>
    intro c hnd hfind x hx hkx
    rw [List.map_cons] at hnd
    obtain ⟨hka, hnd2⟩ := List.nodup_cons.mp hnd
    by_cases ha : (key a == k) = true
    · simp only [List.find?_cons, ha] at hfind
      injection hfind with hc
      subst hc
      rcases List.mem_cons.mp hx with hxa | hxl
      · exact hxa
      · exfalso
        apply hka
        have h1 : key a = key x := by rw [beq_iff_eq.mp ha, hkx]
        rw [h1]
        exact List.mem_map_of_mem key hxl
    · have ha0 : (key a == k) = false := by
        cases hsa : (key a == k)
        · rfl
        · exact absurd hsa ha
      simp only [List.find?_cons, ha0] at hfind
      rcases List.mem_cons.mp hx with hxa | hxl
      · exact absurd (beq_iff_eq.mpr (hxa ▸ hkx)) ha
      · exact ih c hnd2 hfind x hxl hkx

lemma runDisconnect_connections (db : DB) (uid cid up down now : Nat)
    (c : ConnectionLog) (hc : findConn db cid uid = some c) :
    (runDisconnect db uid cid up down now).connections
      = db.connections.map (fun x =>
          if x.id == cid && x.user_id == uid then finalizeConn up down now x else x) := by
  simp only [runDisconnect, disconnect, hc, updateUser, updateServer]
  split
  · rfl
  · split
    · rfl
    · split <;> rfl

lemma runDisconnect_users (db : DB) (uid cid up down now : Nat)
    (c : ConnectionLog) (hc : findConn db cid uid = some c) :
    (runDisconnect db uid cid up down now).users
      = db.users.map (fun x =>
          if x.id == uid then
            { x with total_uploaded := x.total_uploaded + up,
                     total_downloaded := x.total_downloaded + down }
          else x) := by
  simp only [runDisconnect, disconnect, hc, updateUser, updateServer]
  split
  · rfl
  · split
    · rfl
    · split <;> rfl

lemma runDisconnect_usage_stats (db : DB) (uid cid up down now : Nat) :
    (runDisconnect db uid cid up down now).usage_stats = db.usage_stats := by
  simp only [runDisconnect, disconnect]
  cases hc : findConn db cid uid with
  | none => rfl
  | some c =>
    simp only [updateUser, updateServer]
    split
    · rfl
    · split
      · rfl
      · split <;> rfl

lemma runDisconnect_servers (db : DB) (uid cid up down now : Nat)
    (c : ConnectionLog) (sid : Nat) (srv : Server)
    (hc : findConn db cid uid = some c) (hsid : c.server_id = some sid)
    (hsrv : findServer db sid = some srv) :
    (runDisconnect db uid cid up down now).servers
      = if 0 < srv.current_users then
          db.servers.map (fun s =>
            if s.id == sid then { s with current_users := s.current_users - 1 } else s)
        else db.servers := by
  simp only [runDisconnect, disconnect, hc, hsid, updateUser, updateServer]
  split
  · rename_i heq
    have h2 : findServer db sid = none := heq
    rw [h2] at hsrv
    cases hsrv
  · rename_i srv2 heq
    have h2 : findServer db sid = some srv2 := heq
    rw [h2] at hsrv
    injection hsrv with h3
    subst h3
    split <;> simp_all

/-- Effects of a `disconnect` call that found its session, whatever the
status of that session was: the call succeeds, the fetched row is finalized,
the reported bytes are added to the lifetime totals of the calling account,
and a referenced server with a positive counter is decremented (a counter at
0 is left at 0, which `Nat` truncated subtraction expresses). -/
lemma disconnect_found_effects (db : DB) (uid cid up down now : Nat)
    (c : ConnectionLog) (u : User)
    (hc : findConn db cid uid = some c) (hu : findUser db uid = some u) :
    (disconnect db uid cid up down now).isOk = true
    ∧ findConn (runDisconnect db uid cid up down now) cid uid
        = some (finalizeConn up down now c)
    ∧ findUser (runDisconnect db uid cid up down now) uid
        = some { u with total_uploaded := u.total_uploaded + up,
                        total_downloaded := u.total_downloaded + down }
    ∧ ∀ sid srv, c.server_id = some sid → findServer db sid = some srv →
        findServer (runDisconnect db uid cid up down now) sid
          = some { srv with current_users := srv.current_users - 1 } := by
  refine ⟨?_, ?_, ?_, ?_⟩
  · simp [disconnect, hc, Except.isOk, Except.toBool]
  · rw [findConn, runDisconnect_connections db uid cid up down now c hc,
      find?_map_of_pres _ _ (fun x => by
        by_cases hx : (x.id == cid && x.user_id == uid) = true <;>
          simp [hx, finalizeConn])]
    rw [← findConn, hc]
    have hc2 : db.connections.find? (fun x => x.id == cid && x.user_id == uid) = some c := hc
    have hsel := List.find?_some hc2
    simp only at hsel
    obtain h1 : c.id = cid ∧ c.user_id = uid := by simpa using hsel
    simp [h1.1, h1.2]
  · rw [findUser, runDisconnect_users db uid cid up down now c hc,
      find?_map_of_pres _ _ (fun x => by
        by_cases hx : (x.id == uid) = true <;> simp [hx])]
    rw [← findUser, hu]
    have hu2 : db.users.find? (fun x => x.id == uid) = some u := hu
    have hsel := List.find?_some hu2
    simp only at hsel
    obtain h1 : u.id = uid := by simpa using hsel
    simp [h1]
  · intro sid srv hsid hsrv
    rw [findServer, runDisconnect_servers db uid cid up down now c sid srv hc hsid hsrv]
    by_cases hpos : 0 < srv.current_users
    · simp only [hpos, if_true]
      rw [find?_map_of_pres _ _ (fun x => by
        by_cases hx : (x.id == sid) = true <;> simp [hx])]
      rw [← findServer, hsrv]
      have hsrv3 : db.servers.find? (fun x => x.id == sid) = some srv := hsrv
      have hsel := List.find?_some hsrv3
      simp only at hsel
      obtain h1 : srv.id = sid := by simpa using hsel
      simp [h1]
    · simp only [hpos, if_false]
      rw [← findServer, hsrv]
      have h0 : srv.current_users = 0 := by omega
      cases srv with
      | mk i pr ia ip mu cu cl lm =>
        simp only at h0
        simp [h0]

/-- A connect request against an existing active server by an authenticated
user under the device limit always succeeds, appends the new `connected` row
and increments the counter of the target server — no premium or quota
condition appears anywhere in `connect_to_server`. -/
lemma connect_succeeds (db : DB) (uid : Nat) (req : ConnectionCreate)
    (newId now : Nat) (user : User) (server : Server)
    (hu : findUser db uid = some user)
    (hs : findServer db req.server_id = some server)
    (hact : server.is_active = true)
    (hcnt : activeConnectionCount db uid < user.max_devices) :
    (connect_to_server db uid req newId now).isOk = true
    ∧ (runConnect db uid req newId now).connections
        = db.connections ++ [newConnRow uid server req newId now]
    ∧ (runConnect db uid req newId now).servers
        = db.servers.map (fun s =>
            if s.id == server.id then { s with current_users := s.current_users + 1 }
            else s)
    ∧ (runConnect db uid req newId now).usage_stats = db.usage_stats := by
  have hle : ¬user.max_devices ≤ activeConnectionCount db uid := by omega
  refine ⟨?_, ?_, ?_, ?_⟩ <;>
    simp [connect_to_server, runConnect, hu, hs, hact, hle,
      updateUser, updateServer, Except.isOk, Except.toBool]

/-- C7: finalizing a session in `connected` state owned by the caller
succeeds, marks it disconnected with the disconnect timestamp and the
floored duration, records the reported bytes on the session, adds them to
the lifetime totals of the account, and decrements the `current_users` of
the referenced server by 1, never below 0 (`Nat` truncated subtraction). -/
theorem claim_C7_finalize_effects (db : DB) (uid cid up down now t : Nat)
    (c : ConnectionLog) (u : User)
    (hc : findConn db cid uid = some c) (hst : c.status = "connected")
    (hct : c.connected_at = some t) (hu : findUser db uid = some u) :
    (disconnect db uid cid up down now).isOk = true
    ∧ findConn (runDisconnect db uid cid up down now) cid uid
        = some { c with
                 bytes_uploaded := up, bytes_downloaded := down,
                 status := "disconnected", disconnected_at := some now,
                 duration_seconds := some ((now - t) / 1000) }
    ∧ findUser (runDisconnect db uid cid up down now) uid
        = some { u with
                 total_uploaded := u.total_uploaded + up,
                 total_downloaded := u.total_downloaded + down }
    ∧ ∀ sid srv, c.server_id = some sid → findServer db sid = some srv →
        findServer (runDisconnect db uid cid up down now) sid
          = some { srv with current_users := srv.current_users - 1 } := by
  obtain ⟨h1, h2, h3, h4⟩ := disconnect_found_effects db uid cid up down now c u hc hu
  refine ⟨h1, ?_, h3, h4⟩
  rw [h2]
  simp [finalizeConn, hct]

/-- C7 witness: the effects evaluated on the one-session fixture state. -/
theorem claim_C7_witness :
    (disconnect exLiveDB 0 2 100 50 5000).isOk = true
    ∧ findConn (runDisconnect exLiveDB 0 2 100 50 5000) 2 0
        = some { exConn with
                 bytes_uploaded := 100, bytes_downloaded := 50,
                 status := "disconnected", disconnected_at := some 5000,
                 duration_seconds := some ((5000 - 1000) / 1000) }
    ∧ findUser (runDisconnect exLiveDB 0 2 100 50 5000) 0
        = some { exUser with
                 total_uploaded := exUser.total_uploaded + 100,
                 total_downloaded := exUser.total_downloaded + 50 }
    ∧ findServer (runDisconnect exLiveDB 0 2 100 50 5000) 1
        = some { exLiveServer with
                 current_users := exLiveServer.current_users - 1 } := by
  have h := claim_C7_finalize_effects exLiveDB 0 2 100 50 5000 1000 exConn exUser
    (by decide) (by decide) (by decide) (by decide)
  exact ⟨h.1, h.2.1, h.2.2.1, h.2.2.2 1 exLiveServer (by decide) (by decide)⟩

/-- C2 counterexample: re-finalizing the already-disconnected session 2 of
the fixture state succeeds and mutates state again — the lifetime totals
double from (100, 50) to (200, 100) and the server counter drops from 1 to
0 even though session 3 is still connected. -/
theorem claim_C2_counterexample :
    (disconnect exRefinalizeDB 0 2 100 50 9000).isOk = true
    ∧ (findUser (runDisconnect exRefinalizeDB 0 2 100 50 9000) 0).map
        User.total_uploaded = some 200
    ∧ (findUser (runDisconnect exRefinalizeDB 0 2 100 50 9000) 0).map
        User.total_downloaded = some 100
    ∧ (findServer (runDisconnect exRefinalizeDB 0 2 100 50 9000) 1).map
        Server.current_users = some 0
    ∧ connectedCountOnServer (runDisconnect exRefinalizeDB 0 2 100 50 9000) 1 = 1 := by
  decide

/-- C2 amended: a second finalize of a session already in `disconnected`
state neither fails nor is a no-op: the lookup has no status filter, so the
call succeeds again, adds the reported bytes to the lifetime totals of the
account a second time, and decrements the counter of the referenced server a
second time (with the floor at 0). -/
theorem claim_C2_amended_refinalize_mutates_again (db : DB)
    (uid cid up down now : Nat) (c : ConnectionLog) (u : User)
    (hc : findConn db cid uid = some c) (hst : c.status = "disconnected")
    (hu : findUser db uid = some u) :
    (disconnect db uid cid up down now).isOk = true
    ∧ findUser (runDisconnect db uid cid up down now) uid
        = some { u with
                 total_uploaded := u.total_uploaded + up,
                 total_downloaded := u.total_downloaded + down }
    ∧ ∀ sid srv, c.server_id = some sid → findServer db sid = some srv →
        findServer (runDisconnect db uid cid up down now) sid
          = some { srv with current_users := srv.current_users - 1 } := by
  obtain ⟨h1, _, h3, h4⟩ := disconnect_found_effects db uid cid up down now c u hc hu
  exact ⟨h1, h3, h4⟩

/-- C2 amended witness: the re-finalize effects on the fixture state. -/
theorem claim_C2_amended_witness :
    (disconnect exRefinalizeDB 0 2 100 50 9000).isOk = true
    ∧ findUser (runDisconnect exRefinalizeDB 0 2 100 50 9000) 0
        = some { exUsedUser with
                 total_uploaded := exUsedUser.total_uploaded + 100,
                 total_downloaded := exUsedUser.total_downloaded + 50 }
    ∧ findServer (runDisconnect exRefinalizeDB 0 2 100 50 9000) 1
        = some { exLiveServer with
                 current_users := exLiveServer.current_users - 1 } := by
  have h := claim_C2_amended_refinalize_mutates_again exRefinalizeDB 0 2 100 50 9000
    exDoneConn exUsedUser (by decide) (by decide) (by decide)
  exact ⟨h.1, h.2.1, h.2.2 1 exLiveServer (by decide) (by decide)⟩

/-- C1 counterexample: at the fixture state the finalize succeeds yet the
`usage_stats` table stays empty — no UsageRecord row keyed by (account,
date, protocol) is created or updated at all. -/
theorem claim_C1_counterexample :
    (disconnect exLiveDB 0 2 100 50 5000).isOk = true
    ∧ (runDisconnect exLiveDB 0 2 100 50 5000).usage_stats
        = ([] : List UsageStats) := by
  decide

/-- C1 amended: finalize updates the session row, the lifetime totals of the
account and the server counter, but hands nothing to a usage aggregator: no
disconnect call ever changes the `usage_stats` table (no code path in the
repository writes it). -/
theorem claim_C1_amended_no_usage_upsert (db : DB) (uid cid up down now : Nat) :
    (runDisconnect db uid cid up down now).usage_stats = db.usage_stats :=
  runDisconnect_usage_stats db uid cid up down now

/-- C3 counterexample: a plain-role user connecting to a premium server is
not rejected — the session is created. -/
theorem claim_C3_counterexample :
    (connect_to_server exPremiumDB 0 exReq 7 1000).isOk = true
    ∧ (runConnect exPremiumDB 0 exReq 7 1000).connections.map
        ConnectionLog.status = ["connected"] := by
  decide

/-- C3 amended: the premium check lives only in the read-only connection-info
endpoint, which rejects a non-admin non-premium caller with Forbidden and
creates nothing; the session-creating connect endpoint never inspects
`is_premium` and admits the request whenever the server is active and the
device limit is not reached. -/
theorem claim_C3_amended_premium_enforced_in_info_only :
    (∀ db uid sid user server,
       findUser db uid = some user →
       user.role ≠ "admin" → user.role ≠ "premium" →
       db.servers.find? (fun s => s.id == sid && s.is_active) = some server →
       server.is_premium = true →
       get_connection_info db uid sid
         = .error (.forbidden "Premium server requires premium subscription"))
    ∧ (∀ db uid req newId now user server,
       findUser db uid = some user →
       findServer db req.server_id = some server →
       server.is_active = true →
       activeConnectionCount db uid < user.max_devices →
       (connect_to_server db uid req newId now).isOk = true
         ∧ (runConnect db uid req newId now).connections
             = db.connections ++ [newConnRow uid server req newId now]) := by
  constructor
  · intro db uid sid user server hu hr1 hr2 hs hp
    have hrole : (user.role == "admin" || user.role == "premium") = false := by
      simp [hr1, hr2]
    simp [get_connection_info, hu, hs, hp, hrole]
  · intro db uid req newId now user server hu hs hact hcnt
    have h := connect_succeeds db uid req newId now user server hu hs hact hcnt
    exact ⟨h.1, h.2.1⟩

/-- C3 amended witness: both halves evaluated on the premium fixture. -/
theorem claim_C3_amended_witness :
    get_connection_info exPremiumDB 0 1
        = .error (.forbidden "Premium server requires premium subscription")
    ∧ (connect_to_server exPremiumDB 0 exReq 7 1000).isOk = true := by
  constructor
  · exact claim_C3_amended_premium_enforced_in_info_only.1 exPremiumDB 0 1 exUser
      exPremServer (by decide) (by decide) (by decide) (by decide) (by decide)
  · exact (claim_C3_amended_premium_enforced_in_info_only.2 exPremiumDB 0 exReq 7 1000
      exUser exPremServer (by decide) (by decide) (by decide) (by decide)).1

/-- C5 counterexample: a user whose lifetime bytes already reach the 1 MB
data limit still gets a session created by the connect endpoint. -/
theorem claim_C5_counterexample :
    (connect_to_server exQuotaDB 0 exReq 7 1000).isOk = true
    ∧ (runConnect exQuotaDB 0 exReq 7 1000).connections.length = 1 := by
  decide

/-- C5 amended: the data-quota check lives only in the read-only
connection-info endpoint (rejecting with Forbidden when a nonzero limit is
set and the used megabytes reach it); the session-creating connect endpoint
performs no quota check and admits the request whenever the server is active
and the device limit is not reached. -/
theorem claim_C5_amended_quota_enforced_in_info_only :
    (∀ db uid sid user server limit,
       findUser db uid = some user →
       db.servers.find? (fun s => s.id == sid && s.is_active) = some server →
       (server.is_premium && !(user.role == "admin" || user.role == "premium"))
         = false →
       user.data_limit_mb = some limit → limit ≠ 0 →
       limit * 1048576 ≤ user.total_uploaded + user.total_downloaded →
       get_connection_info db uid sid = .error (.forbidden "Data limit exceeded"))
    ∧ (∀ db uid req newId now user server,
       findUser db uid = some user →
       findServer db req.server_id = some server →
       server.is_active = true →
       activeConnectionCount db uid < user.max_devices →
       (connect_to_server db uid req newId now).isOk = true) := by
  constructor
  · intro db uid sid user server limit hu hs hprem hlim hlz hge
    simp [get_connection_info, hu, hs, hprem, hlim, hlz, hge]
    intro hp ha
    simp [hp] at hprem
    exact hprem ha
  · intro db uid req newId now user server hu hs hact hcnt
    exact (connect_succeeds db uid req newId now user server hu hs hact hcnt).1

/-- C5 amended witness: both halves evaluated on the quota fixture. -/
theorem claim_C5_amended_witness :
    get_connection_info exQuotaDB 0 1 = .error (.forbidden "Data limit exceeded")
    ∧ (connect_to_server exQuotaDB 0 exReq 7 1000).isOk = true := by
  constructor
  · exact claim_C5_amended_quota_enforced_in_info_only.1 exQuotaDB 0 1 exQuotaUser
      exServer 1 (by decide) (by decide) (by decide) (by decide) (by decide) (by decide)
  · exact claim_C5_amended_quota_enforced_in_info_only.2 exQuotaDB 0 exReq 7 1000
      exQuotaUser exServer (by decide) (by decide) (by decide) (by decide)

/-- C8: the usage summary over a window equals the component-wise sum of the
daily usage rows returned for the same account and the same window. -/
theorem claim_C8_summary_eq_daily_sums (db : DB) (uid start : Nat) :
    (get_usage_summary db uid start).total_uploaded
        = ((get_daily_usage db uid start).map UsageStats.bytes_uploaded).sum
    ∧ (get_usage_summary db uid start).total_downloaded
        = ((get_daily_usage db uid start).map UsageStats.bytes_downloaded).sum
    ∧ (get_usage_summary db uid start).total_connections
        = ((get_daily_usage db uid start).map UsageStats.connection_count).sum
    ∧ (get_usage_summary db uid start).total_time_seconds
        = ((get_daily_usage db uid start).map UsageStats.connection_time_seconds).sum := by
  have hperm : List.Perm (get_daily_usage db uid start) (usageRowsSince db uid start) :=
    List.perm_insertionSort _ _
  refine ⟨?_, ?_, ?_, ?_⟩ <;>
    · simp only [get_usage_summary]
      exact ((hperm.map _).sum_eq).symm

/-- C9: for an authenticated, active, locked account, login is rejected with
the device-lock Forbidden exactly when a device id is bound (truthy), one is
presented (truthy), and the two differ; in every other case — in particular
when no device id is presented or none is bound — the login succeeds. -/
theorem claim_C9_device_lock_iff (db : DB) (req : UserLogin) (now : Nat)
    (u : User) (hu : findUserByName db req.username = some u)
    (hpw : verify_password req.password u.password_hash = true)
    (hact : u.is_active = true) (hlock : u.is_locked = true) :
    (login db req now = .error (.forbidden "Account is locked to another device")
      ↔ pyTruthy u.device_id = true ∧ pyTruthy req.device_id = true
          ∧ u.device_id ≠ req.device_id)
    ∧ (¬(pyTruthy u.device_id = true ∧ pyTruthy req.device_id = true
          ∧ u.device_id ≠ req.device_id)
        → (login db req now).isOk = true) := by
  simp only [login, hu, hpw, hact, hlock, Bool.not_true, Bool.true_and,
    if_false]
  by_cases h1 : pyTruthy u.device_id = true
  · by_cases h2 : pyTruthy req.device_id = true
    · by_cases h3 : u.device_id = req.device_id
      · simp [h1, h2, h3, Except.isOk, Except.toBool]
      · have hne : (u.device_id != req.device_id) = true := by
          simp [bne_iff_ne, h3]
        simp [h1, h2, h3, hne]
    · simp [h1, h2, Except.isOk, Except.toBool]
  · simp [h1, Except.isOk, Except.toBool]

/-- C9 witness: the locked fixture account rejects the login with a
different device and accepts the login presenting no device id. -/
theorem claim_C9_witness :
    login exLockedDB exLoginReqB 1
        = .error (.forbidden "Account is locked to another device")
    ∧ (login exLockedDB
        { username := "alice", password := "pw",
          device_id := none, device_name := none } 1).isOk = true := by
  constructor
  · exact (claim_C9_device_lock_iff exLockedDB exLoginReqB 1 exLockedUser
      (by decide) (by decide) (by decide) (by decide)).1.mpr
      ⟨by decide, by decide, by decide⟩
  · exact (claim_C9_device_lock_iff exLockedDB
      { username := "alice", password := "pw", device_id := none, device_name := none }
      1 exLockedUser (by decide) (by decide) (by decide) (by decide)).2
      (by intro h; exact absurd h.2.1 (by decide))

/-- C10: every successful login presenting a (truthy) device id rebinds the
stored device of the account to the presented id — and to the presented name
when one is given — and stamps the login time; this includes a locked
account whose lock check passed, so the binding follows the most recent
compatible login. -/
theorem claim_C10_login_rebinds_device (db : DB) (req : UserLogin) (now : Nat)
    (u : User) (hu : findUserByName db req.username = some u)
    (hok : (login db req now).isOk = true)
    (hdev : pyTruthy req.device_id = true) :
    findUserByName (runLogin db req now) req.username
      = some { u with
               device_id := req.device_id,
               device_name := if pyTruthy req.device_name then req.device_name
                              else u.device_name,
               last_login := some now } := by
  by_cases hpw : verify_password req.password u.password_hash = true
  case neg =>
    exfalso
    simp [login, hu, eq_false_of_ne_true hpw, Except.isOk, Except.toBool] at hok
  by_cases hact : u.is_active = true
  case neg =>
    exfalso
    simp [login, hu, hpw, eq_false_of_ne_true hact, Except.isOk, Except.toBool] at hok
  by_cases hlk : (u.is_locked && pyTruthy u.device_id && pyTruthy req.device_id
      && u.device_id != req.device_id) = true
  case pos =>
    exfalso
    simp only [login, hu, hpw, hact, Bool.not_true, if_false] at hok
    rw [if_pos hlk] at hok
    simp [Except.isOk, Except.toBool] at hok
  case neg =>
    have hres : login db req now = .ok (updateUser db u.id (fun x =>
        let x1 := if pyTruthy req.device_id then { x with device_id := req.device_id }
                  else x
        let x2 := if pyTruthy req.device_name then { x1 with device_name := req.device_name }
                  else x1
        { x2 with last_login := some now })) := by
      simp only [login, hu]
      rw [if_neg (by simp [hpw]), if_neg (by simp [hact]), if_neg hlk]
    have hrun : runLogin db req now = updateUser db u.id (fun x =>
        let x1 := if pyTruthy req.device_id then { x with device_id := req.device_id }
                  else x
        let x2 := if pyTruthy req.device_name then { x1 with device_name := req.device_name }
                  else x1
        { x2 with last_login := some now }) := by
      simp only [runLogin, hres]
    rw [hrun, findUserByName, updateUser]
    have hpres : ∀ x : User,
        ((if x.id == u.id then
            (let x1 := if pyTruthy req.device_id then { x with device_id := req.device_id }
                       else x
             let x2 := if pyTruthy req.device_name then { x1 with device_name := req.device_name }
                       else x1
             { x2 with last_login := some now })
          else x).username == req.username) = (x.username == req.username) := by
      intro x
      by_cases hx : (x.id == u.id) = true
      · simp only [hx, if_true]
        by_cases hn : pyTruthy req.device_name = true <;>
          simp [hdev, hn]
      · simp [hx]
    rw [find?_map_of_pres _ _ hpres]
    have hu2 : db.users.find? (fun x => x.username == req.username) = some u := hu
    rw [hu2]
    by_cases hn : pyTruthy req.device_name = true <;> simp [hdev, hn]

/-- C10 witness: the locked fixture account, logging in with the bound
device id and a device name, ends with the presented binding and the new
login time. -/
theorem claim_C10_witness :
    findUserByName (runLogin exLockedDB exLoginReq 1) exLoginReq.username
      = some { exLockedUser with
               device_id := exLoginReq.device_id,
               device_name := if pyTruthy exLoginReq.device_name
                              then exLoginReq.device_name
                              else exLockedUser.device_name,
               last_login := some 1 } :=
  claim_C10_login_rebinds_device exLockedDB exLoginReq 1 exLockedUser
    (by decide) (by decide) (by decide)

lemma keyLt_iff (a b : Nat × Nat × Nat) :
    keyLt a b = true ↔
      a.1 < b.1 ∨ (a.1 = b.1 ∧ (a.2.1 < b.2.1 ∨ (a.2.1 = b.2.1 ∧ a.2.2 < b.2.2))) := by
  simp [keyLt]

lemma keyLt_irrefl (a : Nat × Nat × Nat) : keyLt a a = false := by
  simp [keyLt]

lemma keyLt_asymm (a b : Nat × Nat × Nat) (h : keyLt a b = true) :
    keyLt b a = false := by
  cases hba : keyLt b a
  · rfl
  · exfalso
    rw [keyLt_iff] at h hba
    omega

lemma keyLt_false_trans (a b c : Nat × Nat × Nat)
    (hab : keyLt a b = false) (hbc : keyLt b c = false) : keyLt a c = false := by
  cases hac : keyLt a c
  · rfl
  · exfalso
    have hab2 : ¬keyLt a b = true := by simp [hab]
    have hbc2 : ¬keyLt b c = true := by simp [hbc]
    rw [keyLt_iff] at hac hab2 hbc2
    omega

lemma pickBest_eq_none_iff (l : List Server) : pickBest l = none ↔ l = [] := by
  cases l with
  | nil => simp [pickBest]
  | cons s rest =>
    simp only [pickBest]
    cases pickBest rest with
    | none => simp
    | some b =>
      by_cases h : keyLt (serverSortKey b) (serverSortKey s) = true <;> simp [h]

lemma pickBest_mem : ∀ (l : List Server) (s : Server), pickBest l = some s → s ∈ l := by
  intro l
  induction l with
  | nil => intro s h; cases h
  | cons a rest ih =>
    intro s h
    simp only [pickBest] at h
    cases hb : pickBest rest with
    | none =>
      simp only [hb] at h
      injection h with h
      exact h ▸ List.mem_cons_self a rest
    | some b =>
      simp only [hb] at h
      by_cases hlt : keyLt (serverSortKey b) (serverSortKey a) = true
      · rw [if_pos hlt] at h
        injection h with h
        exact List.mem_cons_of_mem a (ih s (h ▸ hb))
      · rw [if_neg hlt] at h
        injection h with h
        exact h ▸ List.mem_cons_self a rest

lemma pickBest_min : ∀ (l : List Server) (s : Server), pickBest l = some s →
    ∀ t ∈ l, keyLt (serverSortKey t) (serverSortKey s) = false := by
  intro l
  induction l with
  | nil => intro s h; cases h
  | cons a rest ih =>
    intro s h t ht
    simp only [pickBest] at h
    cases hb : pickBest rest with
    | none =>
      simp only [hb] at h
      injection h with h
      subst h
      have hnil : rest = [] := (pickBest_eq_none_iff rest).mp hb
      subst hnil
      rcases List.mem_cons.mp ht with h1 | h1
      · subst h1; exact keyLt_irrefl _
      · cases h1
    | some b =>
      simp only [hb] at h
      by_cases hlt : keyLt (serverSortKey b) (serverSortKey a) = true
      · rw [if_pos hlt] at h
        injection h with h
        subst h
        rcases List.mem_cons.mp ht with h1 | h1
        · subst h1; exact keyLt_asymm _ _ hlt
        · exact ih _ hb t h1
      · rw [if_neg hlt] at h
        injection h with h
        subst h
        rcases List.mem_cons.mp ht with h1 | h1
        · subst h1; exact keyLt_irrefl _
        · have h2 : keyLt (serverSortKey t) (serverSortKey b) = false := ih b hb t h1
          have h3 : keyLt (serverSortKey b) (serverSortKey a) = false := by
            cases hx : keyLt (serverSortKey b) (serverSortKey a)
            · rfl
            · exact absurd hx hlt
          exact keyLt_false_trans _ _ _ h2 h3

lemma mem_eligible_iff (db : DB) (role : String) (protocol : Option String)
    (s : Server) :
    s ∈ eligibleServers db role protocol ↔
      s ∈ db.servers ∧ s.is_active = true ∧ s.current_users < s.max_users
        ∧ premiumEligible role s = true
        ∧ (pyTruthy protocol = true → s.protocol = protocol.getD "") := by
  by_cases ht : pyTruthy protocol = true <;>
    simp [eligibleServers, List.mem_filter, ht, and_assoc]

/-- C6: the candidate set of `get_best_server` is exactly the active servers
with spare capacity (`current_users < max_users`, so a full server is
excluded), premium-eligible for the role of the caller and matching the
protocol filter when one is given; a returned server is a candidate whose
(load, latency) sort key is minimal among all candidates, and the request
fails with the no-available-server error exactly when no candidate remains. -/
theorem claim_C6_best_server_selection (db : DB) (uid : Nat)
    (protocol : Option String) (user : User)
    (hu : findUser db uid = some user) :
    (∀ s : Server, s ∈ eligibleServers db user.role protocol ↔
        s ∈ db.servers ∧ s.is_active = true ∧ s.current_users < s.max_users
          ∧ premiumEligible user.role s = true
          ∧ (pyTruthy protocol = true → s.protocol = protocol.getD ""))
    ∧ (∀ s : Server, get_best_server db uid protocol = .ok s →
        s ∈ eligibleServers db user.role protocol
          ∧ ∀ t ∈ eligibleServers db user.role protocol,
              keyLe (serverSortKey s) (serverSortKey t) = true)
    ∧ (get_best_server db uid protocol = .error (.notFound "No available servers")
        ↔ eligibleServers db user.role protocol = []) := by
  refine ⟨fun s => mem_eligible_iff db user.role protocol s, ?_, ?_⟩
  · intro s hok
    simp only [get_best_server, hu] at hok
    cases hp : pickBest (eligibleServers db user.role protocol) with
    | none => rw [hp] at hok; cases hok
    | some b =>
      rw [hp] at hok
      injection hok with hb
      subst hb
      refine ⟨pickBest_mem _ _ hp, fun t ht => ?_⟩
      rw [keyLe, pickBest_min _ _ hp t ht]
      rfl
  · simp only [get_best_server, hu]
    cases hp : pickBest (eligibleServers db user.role protocol) with
    | none => simp [(pickBest_eq_none_iff _).mp hp]
    | some b =>
      constructor
      · intro h; cases h
      · intro h
        rw [h] at hp
        simp [pickBest] at hp

/-- C6 witness: on the selection fixture, the full low-load server is not a
candidate and the free server is returned. -/
theorem claim_C6_witness :
    exFullServer ∉ eligibleServers exSelectDB "user" none
    ∧ get_best_server exSelectDB 0 none = .ok exServer
    ∧ exServer ∈ eligibleServers exSelectDB "user" none := by
  have h := claim_C6_best_server_selection exSelectDB 0 none exUser (by decide)
  have hok : get_best_server exSelectDB 0 none = .ok exServer := by rfl
  refine ⟨?_, hok, (h.2.1 exServer hok).1⟩
  intro hmem
  exact absurd ((h.1 exFullServer).mp hmem).2.2.1 (by decide)

lemma ite_true_one : (if true = true then (1 : Nat) else 0) = 1 := rfl

lemma ite_false_zero : (if false = true then (1 : Nat) else 0) = 0 := rfl

lemma runDisconnect_servers_none (db : DB) (uid cid up down now : Nat)
    (c : ConnectionLog) (hc : findConn db cid uid = some c)
    (hsid : c.server_id = none) :
    (runDisconnect db uid cid up down now).servers = db.servers := by
  simp only [runDisconnect, disconnect, hc, hsid, updateUser, updateServer]

lemma runDisconnect_servers_nofind (db : DB) (uid cid up down now : Nat)
    (c : ConnectionLog) (sid : Nat) (hc : findConn db cid uid = some c)
    (hsid : c.server_id = some sid) (hns : findServer db sid = none) :
    (runDisconnect db uid cid up down now).servers = db.servers := by
  simp only [runDisconnect, disconnect, hc, hsid, updateUser, updateServer]
  split
  · rfl
  · rename_i srv2 heq
    have h2 : findServer db sid = some srv2 := heq
    rw [h2] at hns
    cases hns

/-- The admit step preserves the capacity invariant and well-formedness,
provided the generated row id is fresh. -/
lemma runConnect_inv (db : DB) (uid : Nat) (req : ConnectionCreate)
    (newId now : Nat) (hwf : WF db) (hinv : Inv db)
    (hfresh : ∀ c ∈ db.connections, c.id ≠ newId) :
    Inv (runConnect db uid req newId now) ∧ WF (runConnect db uid req newId now) := by
  cases hu : findUser db uid with
  | none =>
    have : runConnect db uid req newId now = db := by
      simp [runConnect, connect_to_server, hu]
    rw [this]; exact ⟨hinv, hwf⟩
  | some user =>
    cases hs : findServer db req.server_id with
    | none =>
      have : runConnect db uid req newId now = db := by
        simp [runConnect, connect_to_server, hu, hs]
      rw [this]; exact ⟨hinv, hwf⟩
    | some server =>
      by_cases hact : server.is_active = true
      case neg =>
        have : runConnect db uid req newId now = db := by
          simp [runConnect, connect_to_server, hu, hs, eq_false_of_ne_true hact]
        rw [this]; exact ⟨hinv, hwf⟩
      case pos =>
        by_cases hcnt : user.max_devices ≤ activeConnectionCount db uid
        case pos =>
          have : runConnect db uid req newId now = db := by
            simp [runConnect, connect_to_server, hu, hs, hact, hcnt]
          rw [this]; exact ⟨hinv, hwf⟩
        case neg =>
          obtain ⟨-, hconn, hserv, -⟩ :=
            connect_succeeds db uid req newId now user server hu hs hact (by omega)
          have hs2 : db.servers.find? (fun x => x.id == req.server_id) = some server := hs
          have hsidk : server.id = req.server_id := by
            simpa using List.find?_some hs2
          constructor
          · intro srv2 hmem
            rw [hserv] at hmem
            obtain ⟨srv, hsrvmem, rfl⟩ := List.mem_map.mp hmem
            by_cases hid : srv.id = server.id
            · have hsrveq : srv = server :=
                find?_key_unique Server.id req.server_id db.servers server hwf.1
                  hs2 srv hsrvmem (by rw [hid, hsidk])
              subst hsrveq
              rw [if_pos (by simp : (srv.id == srv.id) = true)]
              rw [connectedCountOnServer, hconn, List.countP_append]
              have hq : (connectedCountOnServer db srv.id) = srv.current_users :=
                (hinv srv hsrvmem).symm
              rw [connectedCountOnServer] at hq
              simp [newConnRow, hq]
            · have hcond : ¬((srv.id == server.id) = true) := by simp [hid]
              rw [if_neg hcond]
              rw [connectedCountOnServer, hconn, List.countP_append]
              have hq := hinv srv hsrvmem
              rw [connectedCountOnServer] at hq
              have hnew : (List.countP
                  (fun x => x.server_id == some srv.id && x.status == "connected")
                  [newConnRow uid server req newId now]) = 0 := by
                simp [newConnRow]
                exact fun h => hid h.symm
              omega
          · constructor
            · rw [hserv, map_key_of_pres Server.id _
                (fun s => by by_cases h : (s.id == server.id) = true <;> simp [h])]
              exact hwf.1
            · rw [hconn, List.map_append, List.nodup_append]
              refine ⟨hwf.2, by simp, ?_⟩
              intro a ha hb
              simp [newConnRow] at hb
              obtain ⟨cx, hcm, hcid⟩ := List.mem_map.mp ha
              exact hfresh cx hcm (by rw [hcid, hb])

/-- The finalize step preserves the capacity invariant and well-formedness,
provided the target session (when found) is still in `connected` state. -/
lemma runDisconnect_inv (db : DB) (uid cid up down now : Nat)
    (hwf : WF db) (hinv : Inv db)
    (hstat : ∀ c, findConn db cid uid = some c → c.status = "connected") :
    Inv (runDisconnect db uid cid up down now)
      ∧ WF (runDisconnect db uid cid up down now) := by
  cases hc : findConn db cid uid with
  | none =>
    have : runDisconnect db uid cid up down now = db := by
      simp [runDisconnect, disconnect, hc]
    rw [this]; exact ⟨hinv, hwf⟩
  | some c =>
    have hcst : c.status = "connected" := hstat c hc
    have hconn := runDisconnect_connections db uid cid up down now c hc
    have hc2 : db.connections.find?
        (fun x => x.id == cid && x.user_id == uid) = some c := hc
    have hcmem : c ∈ db.connections := List.mem_of_find?_eq_some hc2
    have hselid : ∀ x : ConnectionLog,
        (x.id == cid && x.user_id == uid) = true → x.id = cid := by
      intro x hx
      have := (Bool.and_eq_true _ _).mp hx
      simpa using this.1
    have hcount : ∀ q : ConnectionLog → Bool,
        (runDisconnect db uid cid up down now).connections.countP q
            + (if q c = true then 1 else 0)
          = db.connections.countP q
            + (if q (finalizeConn up down now c) = true then 1 else 0) := by
      intro q
      rw [hconn]
      exact countP_map_ite_unique q _ _ ConnectionLog.id cid db.connections c
        hwf.2 hselid hc2
    have hwf2 : WF (runDisconnect db uid cid up down now) := by
      constructor
      · have hserv : ((runDisconnect db uid cid up down now).servers.map Server.id)
            = db.servers.map Server.id := by
          cases hsid : c.server_id with
          | none => rw [runDisconnect_servers_none db uid cid up down now c hc hsid]
          | some sid =>
            cases hsrv : findServer db sid with
            | none =>
              rw [runDisconnect_servers_nofind db uid cid up down now c sid hc hsid hsrv]
            | some srv0 =>
              rw [runDisconnect_servers db uid cid up down now c sid srv0 hc hsid hsrv]
              by_cases hpos : 0 < srv0.current_users
              · rw [if_pos hpos]
                apply map_key_of_pres
                intro s
                by_cases h : (s.id == sid) = true <;> simp [h]
              · rw [if_neg hpos]
        rw [hserv]; exact hwf.1
      · rw [hconn, map_key_of_pres ConnectionLog.id _
          (fun x => by
            by_cases h : (x.id == cid && x.user_id == uid) = true <;>
              simp [h, finalizeConn])]
        exact hwf.2
    refine ⟨?_, hwf2⟩
    cases hsid : c.server_id with
    | none =>
      intro srv hmem
      rw [runDisconnect_servers_none db uid cid up down now c hc hsid] at hmem
      have hq := hcount
        (fun x => x.server_id == some srv.id && x.status == "connected")
      have hqc : (c.server_id == some srv.id && c.status == "connected") = false := by
        simp [hsid]
      have hqf : ((finalizeConn up down now c).server_id == some srv.id
          && (finalizeConn up down now c).status == "connected") = false := by
        simp [finalizeConn]
      rw [hqc, hqf, ite_false_zero] at hq
      have hbase := hinv srv hmem
      rw [connectedCountOnServer] at hbase ⊢
      omega
    | some sid =>
      cases hsrv : findServer db sid with
      | none =>
        intro srv hmem
        rw [runDisconnect_servers_nofind db uid cid up down now c sid hc hsid hsrv]
          at hmem
        have hs2 : db.servers.find? (fun x => x.id == sid) = none := hsrv
        have hnid : srv.id ≠ sid := by
          intro h
          have := List.find?_eq_none.mp hs2 srv hmem
          simp [h] at this
        have hq := hcount
          (fun x => x.server_id == some srv.id && x.status == "connected")
        have hqc : (c.server_id == some srv.id && c.status == "connected") = false := by
          simp [hsid]
          intro h
          exact absurd h.symm hnid
        have hqf : ((finalizeConn up down now c).server_id == some srv.id
            && (finalizeConn up down now c).status == "connected") = false := by
          simp [finalizeConn]
        rw [hqc, hqf, ite_false_zero] at hq
        have hbase := hinv srv hmem
        rw [connectedCountOnServer] at hbase ⊢
        omega
      | some srv0 =>
        have hs2 : db.servers.find? (fun x => x.id == sid) = some srv0 := hsrv
        have hsrv0mem : srv0 ∈ db.servers := List.mem_of_find?_eq_some hs2
        have hsrv0id : srv0.id = sid := by simpa using List.find?_some hs2
        have hpos : 0 < srv0.current_users := by
          have hbase := hinv srv0 hsrv0mem
          rw [connectedCountOnServer] at hbase
          have : 0 < db.connections.countP
              (fun x => x.server_id == some srv0.id && x.status == "connected") := by
            rw [List.countP_pos_iff]
            exact ⟨c, hcmem, by simp [hsid, hsrv0id, hcst]⟩
          omega
        intro srv2 hmem
        rw [runDisconnect_servers db uid cid up down now c sid srv0 hc hsid hsrv,
          if_pos hpos] at hmem
        obtain ⟨srv, hsrvmem, rfl⟩ := List.mem_map.mp hmem
        have hq := hcount
          (fun x => x.server_id == some srv.id && x.status == "connected")
        have hqf : ((finalizeConn up down now c).server_id == some srv.id
            && (finalizeConn up down now c).status == "connected") = false := by
          simp [finalizeConn]
        rw [hqf] at hq
        have hcountsrv : connectedCountOnServer
            (runDisconnect db uid cid up down now) srv.id
            = (runDisconnect db uid cid up down now).connections.countP
                (fun x => x.server_id == some srv.id && x.status == "connected") := by
          rw [connectedCountOnServer]
        by_cases hid : srv.id = sid
        · have hsrveq : srv = srv0 :=
            find?_key_unique Server.id sid db.servers srv0 hwf.1 hs2 srv hsrvmem hid
          subst hsrveq
          have hqc : (c.server_id == some srv.id && c.status == "connected") = true := by
            simp [hsid, hcst, hid]
          rw [hqc, ite_true_one, ite_false_zero] at hq
          have hbase := hinv srv hsrvmem
          rw [connectedCountOnServer] at hbase
          rw [if_pos (by simp [hid] : (srv.id == sid) = true)]
          rw [connectedCountOnServer]
          dsimp only
          omega
        · have hcond : ¬((srv.id == sid) = true) := by simp [hid]
          rw [if_neg hcond]
          have hqc : (c.server_id == some srv.id && c.status == "connected") = false := by
            simp [hsid]
            intro h
            exact absurd h.symm hid
          rw [hqc, ite_false_zero] at hq
          have hbase := hinv srv hsrvmem
          rw [connectedCountOnServer] at hbase
          rw [connectedCountOnServer]
          omega

lemma inv_wf_runOps : ∀ (ops : List Op) (db : DB), WF db → Inv db →
    GoodSeq db ops = true → Inv (runOps db ops) ∧ WF (runOps db ops) := by
  intro ops
  induction ops with
  | nil => intro db hwf hinv _; exact ⟨hinv, hwf⟩
  | cons op ops ih =>
    intro db hwf hinv hgood
    simp only [GoodSeq, Bool.and_eq_true] at hgood
    obtain ⟨hop, hrest⟩ := hgood
    have hstep : Inv (runOp db op) ∧ WF (runOp db op) := by
      cases op with
      | connect uid req newId now =>
        apply runConnect_inv db uid req newId now hwf hinv
        intro c hcmem
        simp only [GoodOp, List.all_eq_true] at hop
        have h2 := hop c hcmem
        simpa using h2
      | finalize uid cid up down now =>
        apply runDisconnect_inv db uid cid up down now hwf hinv
        intro c hc
        simp only [GoodOp, hc] at hop
        simpa using hop
    have : runOps db (op :: ops) = runOps (runOp db op) ops := rfl
    rw [this]
    exact ih (runOp db op) hstep.2 hstep.1 hrest

/-- C4 counterexample: one admit followed by an administrative
force-disconnect leaves the server counter at 1 while no session referencing
the server is still connected — the force-disconnect route never decrements
`current_users`. -/
theorem claim_C4_counterexample :
    (disconnect_user (runConnect exBaseDB 0 exReq 2 1000) 0 2000).2 = 1
    ∧ ((disconnect_user (runConnect exBaseDB 0 exReq 2 1000) 0 2000).1.servers.map
        Server.current_users) = [1]
    ∧ connectedCountOnServer
        (disconnect_user (runConnect exBaseDB 0 exReq 2 1000) 0 2000).1 1 = 0 := by
  decide

/-- C4 amended: after any sequence of completed admits and finalizes in
which every finalize targets a session still in `connected` state (and row
ids are fresh and unique), every server counter equals the number of its
connected sessions; the administrative force-disconnect is excluded because
it never decrements `current_users`, and a finalize of an
already-disconnected session is excluded because it decrements a second
time. -/
theorem claim_C4_amended_invariant (db : DB) (ops : List Op)
    (hwf : WF db) (hinv : Inv db) (hgood : GoodSeq db ops = true) :
    Inv (runOps db ops) :=
  (inv_wf_runOps ops db hwf hinv hgood).1

/-- C4 amended witness: the invariant evaluated after an admit and its
finalize on the base fixture. -/
theorem claim_C4_amended_witness :
    WF exBaseDB ∧ Inv exBaseDB ∧ GoodSeq exBaseDB exOps = true
      ∧ Inv (runOps exBaseDB exOps) :=
  ⟨by unfold WF; decide, by unfold Inv connectedCountOnServer; decide, by decide,
    claim_C4_amended_invariant exBaseDB exOps (by unfold WF; decide)
      (by unfold Inv connectedCountOnServer; decide) (by decide)⟩

end Unfollow
